import Mathlib

set_option maxHeartbeats 1000000

/- Formal model of the rpflow CLI (repository jaim12005/repoprompt-rpflow-cli,
   files src/rpflow/rpcli.py, src/rpflow/state.py, src/rpflow/cli.py), a
   reliability wrapper around the external rp-cli binary.  Python strings are
   modelled as Lean String (a list of unicode code points in Lean 4.14),
   Python integers as Int, and fallible Python code as Except-returning
   functions.  External subprocess results and file-system facts are inputs
   to the embedded flow functions. -/

/-- RunResult dataclass exactly as declared in rpcli.py lines 14-18: it has
    the three fields code, stdout and stderr and nothing else. -/
structure RunResult where
  code : Int
  stdout : String
  stderr : String
deriving DecidableEq, Repr

/-- Field names of the RunResult dataclass in rpcli.py lines 14-18. -/
def runResultFields : List String := ["code", "stdout", "stderr"]

/-- Attribute names that cli.py reads on every RunResult when classifying
    stages and deciding retries: res.timed_out and res.signal appear at
    cli.py lines 125, 133-138 and 171-172 (res.classification appears as
    well at lines 130 and 139). -/
def derivedFlagReads : List String := ["timed_out", "signal"]

/-- Diagnostic marker appended to stderr by RPCLI.run on timeout
    (rpcli.py line 45). -/
def timeout_marker (timeout : Nat) : String :=
  "TIMEOUT: rp-cli exceeded " ++ toString timeout ++ "s"

/-- Python str.endswith for the single newline character: the string is
    non-empty and its last character is a newline. -/
def ends_with_newline (s : String) : Bool := s.data.getLast? == some '\n'

/-- Timeout branch of RPCLI.run (rpcli.py lines 36-46): given the configured
    timeout and the stdout/stderr captured before the child was killed, build
    the synthetic RunResult with exit code 124 and the marker appended. -/
def run_timeout_result (timeout : Nat) (stdout stderr : String) : RunResult :=
  let stderr1 :=
    if stderr ≠ "" ∧ ends_with_newline stderr = false then stderr ++ "\n" else stderr
  { code := 124, stdout := stdout, stderr := stderr1 ++ timeout_marker timeout }

/-- Lowercasing of a Python string, str.lower in rpcli.py line 130 (the
    pattern matched against it is plain ASCII). -/
def strLower (s : String) : String := String.mk (s.data.map Char.toLower)

/-- Substring test on character lists: some tail of s starts with pat.  This
    embeds the Python operator in for strings (rpcli.py line 130). -/
def containsSub (pat s : List Char) : Bool :=
  s.tails.any (fun t => pat.isPrefixOf t)

/-- Case-insensitive substring test used by safe_workspace_switch. -/
def lower_contains (s pat : String) : Bool := containsSub pat.data (strLower s).data

/-- Python expression merged.strip() or fallbackMsg (rpcli.py line 132): the
    stripped string unless it is empty, in which case the fallback message. -/
def pyStripOr (s fallbackMsg : String) : String :=
  if s.trim = "" then fallbackMsg else s.trim

/-- Combined output of the workspace-switch invocation (rpcli.py line 127). -/
def merged_output (res : RunResult) : String := res.stdout ++ "\n" ++ res.stderr

/-- safe_workspace_switch decision logic (rpcli.py lines 113-132), as a
    function of the RunResult of the switch invocation: ok on exit code 0,
    ok when the combined lowered output contains the marker phrase, and an
    error otherwise. -/
def safe_workspace_switch (res : RunResult) : Except String Unit :=
  let merged := merged_output res
  if res.code = 0 then Except.ok ()
  else if lower_contains merged "already on workspace" then Except.ok ()
  else Except.error (pyStripOr merged ("workspace switch failed (" ++ toString res.code ++ ")"))

/-- One entry of the live window list returned by rp-cli, keeping only the
    windowID field that resolve_window reads (rpcli.py line 140). -/
structure WindowInfo where
  windowID : Option Int
deriving DecidableEq, Repr

/-- The ids list of rpcli.py line 140: windowID of every window that has one. -/
def live_window_ids (windows : List WindowInfo) : List Int :=
  windows.filterMap (fun w => w.windowID)

/-- Python repr of a list of integers, as interpolated into the error
    messages of resolve_window. -/
def pyListRepr (xs : List Int) : String :=
  "[" ++ String.intercalate ", " (xs.map toString) ++ "]"

/-- Error message of rpcli.py line 143 for an explicit window that is not live. -/
def window_not_found_msg (requested : Int) (ids : List Int) : String :=
  "requested window " ++ toString requested ++ " not found; available: " ++ pyListRepr ids

/-- Error message of rpcli.py line 150 when no window is open. -/
def no_windows_msg : String := "no Repo Prompt windows are open"

/-- Error message of rpcli.py line 151 when several windows are open. -/
def multiple_windows_msg (ids : List Int) : String :=
  "multiple windows detected (" ++ pyListRepr ids ++ "); pass --window"

/-- Tail of resolve_window (rpcli.py lines 147-151), reached when no explicit
    window was given and the remembered window is absent or not live: exactly
    one live id is returned, zero or several live ids fail. -/
def after_remembered (ids : List Int) : Except String Int :=
  if ids.length = 1 then Except.ok (ids.headD 0)
  else if ids.length = 0 then Except.error no_windows_msg
  else Except.error (multiple_windows_msg ids)

/-- resolve_window (rpcli.py lines 135-151): explicit window must be live or
    the resolver fails listing the live ids; else a live remembered window is
    used; else the single live window; else a descriptive error. -/
def resolve_window (windows : List WindowInfo) (requested remembered : Option Int) :
    Except String Int :=
  let ids := live_window_ids windows
  match requested with
  | some r => if r ∈ ids then Except.ok r else Except.error (window_not_found_msg r ids)
  | none =>
    match remembered with
    | some m => if m ∈ ids then Except.ok m else after_remembered ids
    | none => after_remembered ids

/-- JSON values, the possible parses of the state file content. -/
inductive Json where
  | null : Json
  | bool (b : Bool) : Json
  | num (n : Int) : Json
  | str (s : String) : Json
  | arr (elems : List Json) : Json
  | obj (fields : List (String × Json)) : Json

/-- Conditions of the persisted state file that load_state distinguishes
    (state.py lines 21-33): missing file, a read that raises, content that
    json.loads rejects, and a parsed JSON value. -/
inductive StateFileCond where
  | absent
  | unreadable
  | malformed
  | parsed (data : Json)

/-- RPState dataclass (state.py lines 13-18).  Field values are copied from
    the parsed JSON without validation, so they are modelled as raw optional
    JSON values; None and a missing key coincide in Python, hence Option. -/
structure RPState where
  last_window : Option Json
  last_tab : Option Json
  last_workspace : Option Json
  updated_at : Option Json

/-- The all-empty default RPState (every field defaults to None). -/
def defaultRPState : RPState := ⟨none, none, none, none⟩

/-- Python dict.get on a parsed JSON object: a missing key gives None, and a
    JSON null value also parses to None, so both map to none. -/
def dict_get (fields : List (String × Json)) (key : String) : Option Json :=
  match fields.lookup key with
  | some Json.null => none
  | v => v

/-- load_state (state.py lines 21-33): a missing file, a failing read, a
    JSON parse failure, and a non-object top level (whose attribute access
    data.get raises, caught by the except handler) all give the default
    state; an object gives a state built from unvalidated field lookups. -/
def load_state : StateFileCond → RPState
  | StateFileCond.absent => defaultRPState
  | StateFileCond.unreadable => defaultRPState
  | StateFileCond.malformed => defaultRPState
  | StateFileCond.parsed (Json.obj fields) =>
      { last_window := dict_get fields "last_window"
        last_tab := dict_get fields "last_tab"
        last_workspace := dict_get fields "last_workspace"
        updated_at := dict_get fields "updated_at" }
  | StateFileCond.parsed _ => defaultRPState

/-- Modelled from the spec: the RunResult data model of spec section 3 with
    the derived flags timed-out and terminating signal.  The producer of the
    flags is missing from src: the RunResult dataclass of rpcli.py lines
    14-18 declares only code, stdout and stderr, while cli.py reads
    res.timed_out and res.signal on every result (see derivedFlagReads).
    The flow embeddings below therefore carry the flags as the spec
    declares them. -/
structure RunResultFlags where
  code : Int
  stdout : String
  stderr : String
  timed_out : Bool
  signal : Option Int
deriving DecidableEq, Repr

/-- Python slice text[-limit:] as used in cli.py line 90: the last limit
    characters for a positive limit, and the whole string for limit zero
    (negative zero indexing in Python selects from the start). -/
def pySliceLast (text : String) (limit : Nat) : String :=
  if limit = 0 then text else String.mk (text.data.drop (text.data.length - limit))

/-- Output-tail truncation of cli.py lines 85-90 (source name has a leading
    underscore).  The call sites in the stage records use limit 600. -/
def _tail (text : String) (limit : Nat) : String :=
  if text = "" then ""
  else if text.length ≤ limit then text
  else pySliceLast text limit

/-- Stage record assembled by the report helper of cli.py lines 159-181.
    The classification field is omitted: computing it reads the attribute
    res.classification, which neither the dataclass nor the spec data model
    declares (see derivedFlagReads for the related missing flags). -/
structure StageRecord where
  sname : String
  code : Int
  timed_out : Bool
  signal : Option Int
  stdout_chars : Nat
  stderr_chars : Nat
  stdout_tail : String
  stderr_tail : String
deriving DecidableEq, Repr

/-- Stage-record construction of cli.py lines 167-177: sizes and the 600
    character tails of the captured output. -/
def add_stage (sname : String) (res : RunResultFlags) : StageRecord :=
  { sname := sname
    code := res.code
    timed_out := res.timed_out
    signal := res.signal
    stdout_chars := res.stdout.length
    stderr_chars := res.stderr.length
    stdout_tail := _tail res.stdout 600
    stderr_tail := _tail res.stderr 600 }

/-- Arguments of the plan-export and autopilot subcommands that drive the
    retry, fallback and resume policy (cli.py lines 835-894). -/
structure Args where
  fallback_export_on_timeout : Bool
  retry_on_timeout : Bool
  retry_timeout : Option Int
  retry_timeout_scale : Rat
  resume_from_export : String
deriving DecidableEq, Repr

/-- Python int() conversion on an exact rational: truncation toward zero. -/
def pyInt (q : Rat) : Int :=
  if q.num < 0 then -((-q.num) / (q.den : Int)) else q.num / (q.den : Int)

/-- Scale handling of cli.py lines 117-118: a falsy (zero) scale falls back
    to 1.5 and the result is floored at 1.  The Python float is modelled as
    an exact rational; every branch the claims touch is independent of
    rounding because of the outer max with base plus one. -/
def effective_scale (args : Args) : Rat :=
  max 1 (if args.retry_timeout_scale = 0 then 3 / 2 else args.retry_timeout_scale)

/-- Retry-timeout computation of cli.py lines 113-119: a positive explicit
    retry timeout is used as given, otherwise the base timeout scaled and
    floored at base plus one. -/
def _retry_timeout (args : Args) (base_timeout : Int) : Int :=
  let scaled := max (base_timeout + 1) (pyInt ((base_timeout : Rat) * effective_scale args))
  match args.retry_timeout with
  | some e => if 0 < e then e else scaled
  | none => scaled

/-- Retry predicate of cli.py lines 122-125: retry only when the flag is set
    and the result timed out or was killed by signal 9. -/
def _should_retry_builder (args : Args) (res : RunResultFlags) : Bool :=
  args.retry_on_timeout && (res.timed_out || res.signal == some 9)

/-- The builder result after the optional single retry (cli.py lines
    516-531 and 699-714): the retry result replaces the first result exactly
    when the retry predicate accepted the first result. -/
def final_builder_res (args : Args) (first retried : RunResultFlags) : RunResultFlags :=
  if _should_retry_builder args first then retried else first

/-- Resume precondition of attempt_resume_from_export (cli.py lines
    282-301): a configured non-empty path whose file exists and is a
    regular file. -/
def resume_available (args : Args) (resume_exists resume_is_file : Bool) : Bool :=
  (args.resume_from_export != "") && resume_exists && resume_is_file

/-- Observable outcome of one plan-export or autopilot invocation: the final
    exit code, how many builder runs happened, which optional stages ran,
    whether the wrapper produced the output file (a successful export stage
    or a resume copy), and whether routing state was persisted. -/
structure Outcome where
  code : Int
  builder_runs : Nat
  retry_used : Bool
  retry_timeout_used : Option Int
  fallback_used : Bool
  resume_used : Bool
  out_written : Bool
  state_saved : Bool
deriving DecidableEq, Repr

/-- Final bookkeeping shared by every branch: maybe_save_state persists the
    routing exactly when the final code is zero (cli.py lines 259-261 with
    the calls at lines 574 and 757). -/
def finish (code : Int) (runs : Nat) (retry_used : Bool) (rtu : Option Int)
    (fallback_used resume_used out_written : Bool) : Outcome :=
  { code := code
    builder_runs := runs
    retry_used := retry_used
    retry_timeout_used := rtu
    fallback_used := fallback_used
    resume_used := resume_used
    out_written := out_written
    state_saved := code == 0 }

/-- Builder orchestration shared verbatim by cmd_plan_export (cli.py lines
    513-574) and cmd_autopilot after a passing preflight (cli.py lines
    696-757); the two code blocks are textually identical in this logic and
    differ only in stage names and resume reason strings, which are report
    metadata and are not part of the outcome.  Inputs are the results the
    external tool would return for the first builder run, the retried run
    and the fallback export, plus the file-system facts about the resume
    source.  A successful export stage writes the output file (the composite
    command ends in prompt export); a resume substitution copies it. -/
def builder_flow (args : Args) (timeout : Int) (first retried fb : RunResultFlags)
    (resume_exists resume_is_file : Bool) : Outcome :=
  let retry_used := _should_retry_builder args first
  let res := final_builder_res args first retried
  let rtu := if retry_used then some (_retry_timeout args timeout) else none
  let runs : Nat := if retry_used then 2 else 1
  let resume_ok := resume_available args resume_exists resume_is_file
  if (res.code = 124 ∨ res.signal = some 9) ∧ args.fallback_export_on_timeout = true then
    if fb.code ≠ 0 then
      finish (if resume_ok then 0 else fb.code) runs retry_used rtu true resume_ok resume_ok
    else
      finish fb.code runs retry_used rtu true false true
  else if res.code ≠ 0 then
    finish (if resume_ok then 0 else res.code) runs retry_used rtu false resume_ok resume_ok
  else
    finish res.code runs retry_used rtu false false true

/-- cmd_autopilot outcome (cli.py lines 644-776): when any preflight check
    fails, the command resumes from an existing export if configured and
    returns without running the builder and, notably, without the
    maybe_save_state call (the early return at lines 663-690 skips line
    757); otherwise it continues into the shared builder orchestration. -/
def cmd_autopilot_flow (args : Args) (timeout : Int) (preflight_failed : Bool)
    (first retried fb : RunResultFlags) (resume_exists resume_is_file : Bool) : Outcome :=
  if preflight_failed then
    let resumed := resume_available args resume_exists resume_is_file
    { code := if resumed then 0 else 1
      builder_runs := 0
      retry_used := false
      retry_timeout_used := none
      fallback_used := false
      resume_used := resumed
      out_written := resumed
      state_saved := false }
  else builder_flow args timeout first retried fb resume_exists resume_is_file

/-- Outcome of the simpler state-saving commands: final code and whether
    state was persisted. -/
structure SimpleOutcome where
  code : Int
  state_saved : Bool
deriving DecidableEq, Repr

/-- cmd_exec tail (cli.py lines 383-395): save state iff the exit code of
    the exec invocation is zero, and return that code. -/
def cmd_exec_flow (res : RunResultFlags) : SimpleOutcome :=
  { code := res.code, state_saved := res.code == 0 }

/-- cmd_call tail (cli.py lines 420-432): same save-iff-zero policy. -/
def cmd_call_flow (res : RunResultFlags) : SimpleOutcome :=
  { code := res.code, state_saved := res.code == 0 }

/-- cmd_export tail (cli.py lines 481-495): same save-iff-zero policy. -/
def cmd_export_flow (res : RunResultFlags) : SimpleOutcome :=
  { code := res.code, state_saved := res.code == 0 }

/-- cmd_smoke tail (cli.py lines 606-641): exit 1 without saving when any
    check failed, else save and exit 0. -/
def cmd_smoke_flow (any_failed : Bool) : SimpleOutcome :=
  if any_failed then { code := 1, state_saved := false }
  else { code := 0, state_saved := true }

/-- cmd_doctor (cli.py lines 316-358): reads remembered routing but always
    exits 0 and never calls maybe_save_state. -/
def cmd_doctor_flow : SimpleOutcome := { code := 0, state_saved := false }

/- Helper lemmas shared by the claim theorems. -/

theorem str_append_empty (a : String) : a ++ "" = a := by
  cases a
  show String.mk _ = _
  rw [List.append_nil]

theorem containsSub_iff (pat s : List Char) : containsSub pat s = true ↔ pat <:+: s := by
  simp only [containsSub, List.any_eq_true, List.mem_tails]
  constructor
  · rintro ⟨t, hts, hpt⟩
    exact List.infix_iff_prefix_suffix.mpr ⟨t, List.isPrefixOf_iff_prefix.mp hpt, hts⟩
  · intro h
    rcases List.infix_iff_prefix_suffix.mp h with ⟨t, hp, hs⟩
    exact ⟨t, hs, List.isPrefixOf_iff_prefix.mpr hp⟩

theorem should_retry_iff (args : Args) (res : RunResultFlags) :
    _should_retry_builder args res = true
      ↔ args.retry_on_timeout = true ∧ (res.timed_out = true ∨ res.signal = some 9) := by
  simp [_should_retry_builder, Bool.and_eq_true, Bool.or_eq_true, beq_iff_eq]

theorem builder_flow_runs (args : Args) (timeout : Int) (first retried fb : RunResultFlags)
    (re rif : Bool) :
    (builder_flow args timeout first retried fb re rif).builder_runs
      = if _should_retry_builder args first then 2 else 1 := by
  simp only [builder_flow]
  split <;> split <;> rfl

theorem builder_flow_retry_used (args : Args) (timeout : Int) (first retried fb : RunResultFlags)
    (re rif : Bool) :
    (builder_flow args timeout first retried fb re rif).retry_used
      = _should_retry_builder args first := by
  simp only [builder_flow]
  split <;> split <;> rfl

theorem builder_flow_rtu (args : Args) (timeout : Int) (first retried fb : RunResultFlags)
    (re rif : Bool) :
    (builder_flow args timeout first retried fb re rif).retry_timeout_used
      = (if _should_retry_builder args first then some (_retry_timeout args timeout)
         else none) := by
  simp only [builder_flow]
  split <;> split <;> rfl

theorem builder_flow_saved (args : Args) (timeout : Int) (first retried fb : RunResultFlags)
    (re rif : Bool) :
    (builder_flow args timeout first retried fb re rif).state_saved
      = ((builder_flow args timeout first retried fb re rif).code == 0) := by
  simp only [builder_flow]
  split <;> split <;> rfl

/-- Claim C5: with an explicit window, resolution returns it when live and
    fails with a message listing the live ids when not; with no explicit
    window a live remembered window is returned; otherwise a single live
    window is returned and zero or several live windows fail with the
    corresponding descriptive errors. -/
theorem c5_resolve_window_cases (windows : List WindowInfo)
    (requested remembered : Option Int) :
    (∀ r, requested = some r → r ∈ live_window_ids windows →
        resolve_window windows requested remembered = Except.ok r)
    ∧ (∀ r, requested = some r → r ∉ live_window_ids windows →
        resolve_window windows requested remembered
          = Except.error (window_not_found_msg r (live_window_ids windows))
        ∧ ∃ pre, window_not_found_msg r (live_window_ids windows)
            = pre ++ pyListRepr (live_window_ids windows))
    ∧ (∀ m, requested = none → remembered = some m → m ∈ live_window_ids windows →
        resolve_window windows requested remembered = Except.ok m)
    ∧ (requested = none →
        (∀ m, remembered = some m → m ∉ live_window_ids windows) →
        (∀ x, live_window_ids windows = [x] →
            resolve_window windows requested remembered = Except.ok x)
        ∧ (live_window_ids windows = [] →
            resolve_window windows requested remembered = Except.error no_windows_msg)
        ∧ (2 ≤ (live_window_ids windows).length →
            resolve_window windows requested remembered
              = Except.error (multiple_windows_msg (live_window_ids windows)))) := by
  refine ⟨?_, ?_, ?_, ?_⟩
  · intro r hr hmem
    subst hr
    simp only [resolve_window]
    rw [if_pos hmem]
  · intro r hr hmem
    subst hr
    refine ⟨?_, "requested window " ++ toString r ++ " not found; available: ", rfl⟩
    simp only [resolve_window]
    rw [if_neg hmem]
  · intro m hreq hrem hmem
    subst hreq
    subst hrem
    simp only [resolve_window]
    rw [if_pos hmem]
  · intro hreq hrem
    subst hreq
    have hafter : resolve_window windows none remembered
        = after_remembered (live_window_ids windows) := by
      simp only [resolve_window]
      cases remembered with
      | none => rfl
      | some m =>
        show (if m ∈ live_window_ids windows then Except.ok m
              else after_remembered (live_window_ids windows))
            = after_remembered (live_window_ids windows)
        rw [if_neg (hrem m rfl)]
    refine ⟨?_, ?_, ?_⟩
    · intro x hx
      rw [hafter, after_remembered, hx]
      simp
    · intro hx
      rw [hafter, after_remembered, hx]
      simp
    · intro hlen
      rw [hafter, after_remembered]
      rw [if_neg (by omega), if_neg (by omega)]

/-- Witness for C5 at concrete window lists: every branch of the resolver is
    exercised at an explicit live window, an explicit missing window, a live
    remembered window, a single live window, an empty list and an ambiguous
    list. -/
theorem c5_resolve_window_cases_witness :
    resolve_window [⟨some 3⟩, ⟨some 7⟩] (some 7) none = Except.ok 7
    ∧ resolve_window [⟨some 3⟩, ⟨some 7⟩] (some 5) none
        = Except.error (window_not_found_msg 5 [3, 7])
    ∧ resolve_window [⟨some 3⟩, ⟨some 7⟩] none (some 7) = Except.ok 7
    ∧ resolve_window [⟨some 3⟩] none none = Except.ok 3
    ∧ resolve_window [] none none = Except.error no_windows_msg
    ∧ resolve_window [⟨some 3⟩, ⟨some 7⟩] none none
        = Except.error (multiple_windows_msg [3, 7]) := by
  refine ⟨?_, ?_, ?_, ?_, ?_, ?_⟩
  · exact (c5_resolve_window_cases [⟨some 3⟩, ⟨some 7⟩] (some 7) none).1 7 rfl (by decide)
  · exact ((c5_resolve_window_cases [⟨some 3⟩, ⟨some 7⟩] (some 5) none).2.1 5 rfl (by decide)).1
  · exact (c5_resolve_window_cases [⟨some 3⟩, ⟨some 7⟩] none (some 7)).2.2.1 7 rfl rfl (by decide)
  · exact ((c5_resolve_window_cases [⟨some 3⟩] none none).2.2.2 rfl
      (fun m hm => Option.noConfusion hm)).1 3 rfl
  · exact ((c5_resolve_window_cases [] none none).2.2.2 rfl
      (fun m hm => Option.noConfusion hm)).2.1 rfl
  · exact ((c5_resolve_window_cases [⟨some 3⟩, ⟨some 7⟩] none none).2.2.2 rfl
      (fun m hm => Option.noConfusion hm)).2.2 (by decide)

/-- Claim C6: a workspace-switch result whose combined lowered output
    contains the phrase already on workspace is treated as success no matter
    what the exit code reports, and any other non-zero result raises. -/
theorem c6_safe_workspace_switch (res : RunResult) :
    ("already on workspace".data <:+: (strLower (merged_output res)).data →
      safe_workspace_switch res = Except.ok ())
    ∧ (res.code ≠ 0 →
        ¬ "already on workspace".data <:+: (strLower (merged_output res)).data →
        ∃ msg, safe_workspace_switch res = Except.error msg) := by
  constructor
  · intro h
    have hb : lower_contains (merged_output res) "already on workspace" = true :=
      (containsSub_iff _ _).mpr h
    by_cases hc : res.code = 0
    · simp [safe_workspace_switch, hc]
    · simp [safe_workspace_switch, hc, hb]
  · intro hc h
    have hb : ¬ lower_contains (merged_output res) "already on workspace" = true :=
      fun hb => h ((containsSub_iff _ _).mp hb)
    simp only [safe_workspace_switch]
    rw [if_neg hc, if_neg hb]
    exact ⟨_, rfl⟩

/-- Witness for C6: a non-zero switch result carrying the phrase in mixed
    case succeeds, and a non-zero result without the phrase errors. -/
theorem c6_safe_workspace_switch_witness :
    safe_workspace_switch ⟨2, "", "Already ON Workspace GitHub"⟩ = Except.ok ()
    ∧ ∃ msg, safe_workspace_switch ⟨3, "boom", "failed"⟩ = Except.error msg :=
  ⟨(c6_safe_workspace_switch ⟨2, "", "Already ON Workspace GitHub"⟩).1 (by decide),
   (c6_safe_workspace_switch ⟨3, "boom", "failed"⟩).2 (by decide) (by decide)⟩

/-- Claim C7: the timeout branch of the process invoker returns exit code
    124, preserves the stdout captured before the kill, and its stderr is the
    captured stderr followed by the TIMEOUT marker (with a separating newline
    when the captured stderr is non-empty and does not already end in one). -/
theorem c7_run_timeout_result_shape (timeout : Nat) (stdout stderr : String) :
    (run_timeout_result timeout stdout stderr).code = 124
    ∧ (run_timeout_result timeout stdout stderr).stdout = stdout
    ∧ (timeout_marker timeout).data <:+ (run_timeout_result timeout stdout stderr).stderr.data
    ∧ ∃ sep, (run_timeout_result timeout stdout stderr).stderr
        = stderr ++ sep ++ timeout_marker timeout ∧ (sep = "" ∨ sep = "\n") := by
  refine ⟨rfl, rfl, ?_, ?_⟩
  · simp only [run_timeout_result, String.data_append]
    exact List.suffix_append _ _
  · simp only [run_timeout_result]
    split
    · exact ⟨"\n", rfl, Or.inr rfl⟩
    · exact ⟨"", by rw [str_append_empty], Or.inl rfl⟩

/-- Claim C8 fails on the code: the derived flags that the stage
    classification and retry logic of cli.py read on every result are not
    among the fields of the RunResult dataclass of rpcli.py, so those
    attribute accesses cannot be served by the produced results. -/
theorem c8_run_result_missing_flags :
    ¬ ∀ a ∈ derivedFlagReads, a ∈ runResultFields := by
  decide

/-- Claim C9: loading persisted state never raises, and every failure
    condition of the state file (absent, unreadable, malformed JSON or a
    non-object top level) yields the all-empty default state. -/
theorem c9_load_state_default (cond : StateFileCond) :
    (∀ fields, cond ≠ StateFileCond.parsed (Json.obj fields)) →
    load_state cond = defaultRPState := by
  intro h
  cases cond with
  | absent => rfl
  | unreadable => rfl
  | malformed => rfl
  | parsed j =>
    cases j with
    | obj fields => exact absurd rfl (h fields)
    | null => rfl
    | bool b => rfl
    | num n => rfl
    | str s => rfl
    | arr elems => rfl

/-- Witness for C9 at the malformed-content condition. -/
theorem c9_load_state_default_witness :
    load_state StateFileCond.malformed = defaultRPState :=
  c9_load_state_default StateFileCond.malformed
    (fun _fields h => StateFileCond.noConfusion h)

/-- Claim C10 fails as stated at limit zero: the Python slice text[-0:]
    selects from index zero, so the tail of ab with limit 0 is the whole
    string of length 2, exceeding the limit. -/
theorem c10_tail_counterexample :
    _tail "ab" 0 = "ab" ∧ ¬ (_tail "ab" 0).length ≤ 0 := by
  constructor
  · decide
  · decide

/-- Claim C10 amended: for every input text and every positive limit the
    truncation returns a suffix of the input of length at most the limit
    (the whole input when it already fits), and every stage record carries
    the 600 character tails of the captured stdout and stderr. -/
theorem c10_tail_suffix (text : String) (limit : Nat) (hpos : 0 < limit) :
    ((_tail text limit).data <:+ text.data
      ∧ (_tail text limit).length ≤ limit
      ∧ (text.length ≤ limit → _tail text limit = text))
    ∧ ∀ sname res, (add_stage sname res).stdout_tail = _tail res.stdout 600
        ∧ (add_stage sname res).stderr_tail = _tail res.stderr 600 := by
  constructor
  · by_cases h1 : text = ""
    · subst h1
      exact ⟨List.nil_suffix, Nat.zero_le _, fun _ => rfl⟩
    · by_cases h2 : text.length ≤ limit
      · have ht : _tail text limit = text := by
          simp [_tail, h1, h2]
        refine ⟨?_, ?_, fun _ => ht⟩
        · rw [ht]
        · rw [ht]
          exact h2
      · have hl0 : limit ≠ 0 := Nat.pos_iff_ne_zero.mp hpos
        have ht : _tail text limit
            = String.mk (text.data.drop (text.data.length - limit)) := by
          simp [_tail, h1, h2, pySliceLast, hl0]
        refine ⟨?_, ?_, fun hfit => absurd hfit h2⟩
        · rw [ht]
          exact List.drop_suffix _ _
        · rw [ht]
          show (text.data.drop (text.data.length - limit)).length ≤ limit
          rw [List.length_drop]
          omega
  · exact fun sname res => ⟨rfl, rfl⟩

/-- Witness for C10 amended at a six character input and limit three. -/
theorem c10_tail_suffix_witness :
    (_tail "abcdef" 3).data <:+ "abcdef".data ∧ (_tail "abcdef" 3).length ≤ 3 :=
  ⟨(c10_tail_suffix "abcdef" 3 (by decide)).1.1,
   (c10_tail_suffix "abcdef" 3 (by decide)).1.2.1⟩

/-- Claim C1: a plan-export whose (possibly retried) builder run ends as a
    timeout, with the fallback flag disabled and the resume source file
    non-existent, finishes with the timeout code 124, writes nothing to the
    output path, and does not persist state. -/
theorem c1_plan_export_timeout_propagates (args : Args) (timeout : Int)
    (first retried fb : RunResultFlags) (rif : Bool)
    (hfb : args.fallback_export_on_timeout = false)
    (hres : (final_builder_res args first retried).code = 124)
    (_hto : (final_builder_res args first retried).timed_out = true) :
    (builder_flow args timeout first retried fb false rif).code = 124
    ∧ (builder_flow args timeout first retried fb false rif).out_written = false
    ∧ (builder_flow args timeout first retried fb false rif).state_saved = false := by
  have hcond : ¬ (((final_builder_res args first retried).code = 124
      ∨ (final_builder_res args first retried).signal = some 9)
      ∧ args.fallback_export_on_timeout = true) := by
    rintro ⟨-, hflag⟩
    rw [hfb] at hflag
    cases hflag
  have h0 : (final_builder_res args first retried).code ≠ 0 := by
    rw [hres]
    decide
  have hra : resume_available args false rif = false := by
    simp [resume_available]
  simp only [builder_flow, if_neg hcond, if_pos h0, hra, finish]
  simp [hres]

/-- Witness for C1: builder times out at 124, no retry, fallback disabled,
    resume path configured but missing. -/
theorem c1_plan_export_timeout_propagates_witness :
    (builder_flow ⟨false, false, none, 3 / 2, "missing.md"⟩ 120
        ⟨124, "", "TIMEOUT", true, none⟩ ⟨0, "", "", false, none⟩
        ⟨0, "", "", false, none⟩ false false).code = 124
    ∧ (builder_flow ⟨false, false, none, 3 / 2, "missing.md"⟩ 120
        ⟨124, "", "TIMEOUT", true, none⟩ ⟨0, "", "", false, none⟩
        ⟨0, "", "", false, none⟩ false false).out_written = false
    ∧ (builder_flow ⟨false, false, none, 3 / 2, "missing.md"⟩ 120
        ⟨124, "", "TIMEOUT", true, none⟩ ⟨0, "", "", false, none⟩
        ⟨0, "", "", false, none⟩ false false).state_saved = false :=
  c1_plan_export_timeout_propagates ⟨false, false, none, 3 / 2, "missing.md"⟩ 120
    ⟨124, "", "TIMEOUT", true, none⟩ ⟨0, "", "", false, none⟩ ⟨0, "", "", false, none⟩
    false rfl (by decide) (by decide)

/-- Claim C2: in the shared plan-export and autopilot builder orchestration
    the fallback plain export runs exactly when the possibly retried builder
    result carries the timeout code 124 or a signal-9 kill and the fallback
    flag is set; every other non-zero result goes directly to the
    resume-or-fail branch with the fallback stage never invoked.  The
    autopilot flow equals this orchestration when preflight passes and never
    reaches fallback when preflight fails. -/
theorem c2_fallback_gating (args : Args) (timeout : Int)
    (first retried fb : RunResultFlags) (re rif : Bool) :
    ((builder_flow args timeout first retried fb re rif).fallback_used = true
      ↔ (((final_builder_res args first retried).code = 124
            ∨ (final_builder_res args first retried).signal = some 9)
          ∧ args.fallback_export_on_timeout = true))
    ∧ ((final_builder_res args first retried).code ≠ 0 →
        ¬ ((final_builder_res args first retried).code = 124
            ∨ (final_builder_res args first retried).signal = some 9) →
        (builder_flow args timeout first retried fb re rif).fallback_used = false
        ∧ (builder_flow args timeout first retried fb re rif).resume_used
            = resume_available args re rif
        ∧ (builder_flow args timeout first retried fb re rif).code
            = (if resume_available args re rif = true then 0
               else (final_builder_res args first retried).code))
    ∧ (cmd_autopilot_flow args timeout false first retried fb re rif
        = builder_flow args timeout first retried fb re rif)
    ∧ (cmd_autopilot_flow args timeout true first retried fb re rif).fallback_used
        = false := by
  refine ⟨?_, ?_, ?_, ?_⟩
  · by_cases h : (((final_builder_res args first retried).code = 124
        ∨ (final_builder_res args first retried).signal = some 9)
        ∧ args.fallback_export_on_timeout = true)
    · simp only [builder_flow, if_pos h]
      split <;> simp [finish, h]
    · simp only [builder_flow, if_neg h]
      split <;> simp [finish, h]
  · intro h0 hno
    have hcond : ¬ (((final_builder_res args first retried).code = 124
        ∨ (final_builder_res args first retried).signal = some 9)
        ∧ args.fallback_export_on_timeout = true) := fun hc => hno hc.1
    simp only [builder_flow, if_neg hcond, if_pos h0, finish]
    refine ⟨trivial, trivial, ?_⟩
    by_cases hra : resume_available args re rif = true
    · simp [hra]
    · simp [hra, Bool.eq_false_iff.mpr hra]
  · rfl
  · rfl

/-- Witness for C2: an ordinary exit code 1 from the builder, with the
    fallback flag set, skips the fallback stage. -/
theorem c2_fallback_gating_witness :
    (builder_flow ⟨true, false, none, 3 / 2, ""⟩ 120 ⟨1, "", "boom", false, none⟩
        ⟨0, "", "", false, none⟩ ⟨0, "", "", false, none⟩ false false).fallback_used
      = false :=
  ((c2_fallback_gating ⟨true, false, none, 3 / 2, ""⟩ 120 ⟨1, "", "boom", false, none⟩
      ⟨0, "", "", false, none⟩ ⟨0, "", "", false, none⟩ false false).2.1
    (by decide) (by decide)).1

/-- Claim C3 fails as stated: with base timeout 10 and an explicit positive
    retry timeout of 5 the code uses 5 for the retry, which is below base
    plus one, contradicting the clause that the retry timeout is at least
    base plus one in every case. -/
theorem c3_retry_timeout_counterexample :
    _retry_timeout ⟨false, true, some 5, 3 / 2, ""⟩ 10 = 5
    ∧ ¬ (10 + 1 : Int) ≤ _retry_timeout ⟨false, true, some 5, 3 / 2, ""⟩ 10 := by
  constructor
  · decide
  · decide

/-- Claim C3 amended: in both builder flows the retry runs at most once,
    exactly when retry-on-timeout is set and the first result timed out or
    was killed by signal 9, with the timeout from the retry-timeout
    computation; that computation returns a positive explicit retry timeout
    as given (even when below base plus one), ignores a non-positive
    explicit value, and otherwise returns the scaled value
    max(base+1, int(base*scale)), which is at least base plus one. -/
theorem c3_retry_policy (args : Args) (timeout : Int)
    (first retried fb : RunResultFlags) (re rif : Bool) :
    (builder_flow args timeout first retried fb re rif).builder_runs ≤ 2
    ∧ ((builder_flow args timeout first retried fb re rif).builder_runs = 2
        ↔ args.retry_on_timeout = true
          ∧ (first.timed_out = true ∨ first.signal = some 9))
    ∧ (builder_flow args timeout first retried fb re rif).retry_used
        = _should_retry_builder args first
    ∧ (builder_flow args timeout first retried fb re rif).retry_timeout_used
        = (if _should_retry_builder args first then some (_retry_timeout args timeout)
           else none)
    ∧ (∀ pf, (cmd_autopilot_flow args timeout pf first retried fb re rif).builder_runs ≤ 2)
    ∧ (∀ e, args.retry_timeout = some e → 0 < e → _retry_timeout args timeout = e)
    ∧ (∀ e, args.retry_timeout = some e → ¬ 0 < e →
        _retry_timeout args timeout
          = max (timeout + 1) (pyInt ((timeout : Rat) * effective_scale args))
        ∧ timeout + 1 ≤ _retry_timeout args timeout)
    ∧ (args.retry_timeout = none →
        _retry_timeout args timeout
          = max (timeout + 1) (pyInt ((timeout : Rat) * effective_scale args))
        ∧ timeout + 1 ≤ _retry_timeout args timeout) := by
  refine ⟨?_, ?_, builder_flow_retry_used args timeout first retried fb re rif,
    builder_flow_rtu args timeout first retried fb re rif, ?_, ?_, ?_, ?_⟩
  · rw [builder_flow_runs]
    split <;> omega
  · rw [builder_flow_runs]
    by_cases hr : _should_retry_builder args first = true
    · simp only [if_pos hr]
      simp [should_retry_iff args first] at hr
      simp [hr]
    · simp only [if_neg hr]
      rw [should_retry_iff args first] at hr
      simp [hr]
  · intro pf
    cases pf
    · show (builder_flow args timeout first retried fb re rif).builder_runs ≤ 2
      rw [builder_flow_runs]
      split <;> omega
    · show (0 : Nat) ≤ 2
      omega
  · intro e he hpos
    simp [_retry_timeout, he, hpos]
  · intro e he hnpos
    constructor
    · simp [_retry_timeout, he, hnpos]
    · simp only [_retry_timeout, he, if_neg hnpos]
      exact le_max_left _ _
  · intro he
    constructor
    · simp [_retry_timeout, he]
    · simp only [_retry_timeout, he]
      exact le_max_left _ _

/-- Witness for C3 amended: with retry enabled, no explicit retry timeout
    and a timed-out first result, the flow runs at most two builder attempts
    and the scaled retry timeout is at least base plus one; a non-positive
    explicit retry timeout of zero is ignored and also gives at least base
    plus one. -/
theorem c3_retry_policy_witness :
    (builder_flow ⟨false, true, none, 3 / 2, ""⟩ 10 ⟨124, "", "", true, none⟩
        ⟨0, "", "", false, none⟩ ⟨0, "", "", false, none⟩ false false).builder_runs ≤ 2
    ∧ (10 + 1 : Int) ≤ _retry_timeout ⟨false, true, none, 3 / 2, ""⟩ 10
    ∧ (10 + 1 : Int) ≤ _retry_timeout ⟨false, true, some 0, 3 / 2, ""⟩ 10 :=
  ⟨(c3_retry_policy ⟨false, true, none, 3 / 2, ""⟩ 10 ⟨124, "", "", true, none⟩
      ⟨0, "", "", false, none⟩ ⟨0, "", "", false, none⟩ false false).1,
   ((c3_retry_policy ⟨false, true, none, 3 / 2, ""⟩ 10 ⟨124, "", "", true, none⟩
      ⟨0, "", "", false, none⟩ ⟨0, "", "", false, none⟩ false false).2.2.2.2.2.2.2 rfl).2,
   ((c3_retry_policy ⟨false, true, some 0, 3 / 2, ""⟩ 10 ⟨124, "", "", true, none⟩
      ⟨0, "", "", false, none⟩ ⟨0, "", "", false, none⟩ false false).2.2.2.2.2.2.1 0 rfl
      (by decide)).2⟩

/-- Claim C4 fails as stated: an autopilot run whose preflight fails and
    whose configured resume file exists finishes with exit code 0 (an
    accepted resume substitution) yet does not persist routing state, since
    the early return skips the save call. -/
theorem c4_state_save_counterexample :
    (cmd_autopilot_flow ⟨false, false, none, 3 / 2, "prev.md"⟩ 120 true
        ⟨0, "", "", false, none⟩ ⟨0, "", "", false, none⟩ ⟨0, "", "", false, none⟩
        true true).code = 0
    ∧ (cmd_autopilot_flow ⟨false, false, none, 3 / 2, "prev.md"⟩ 120 true
        ⟨0, "", "", false, none⟩ ⟨0, "", "", false, none⟩ ⟨0, "", "", false, none⟩
        true true).state_saved = false := by
  constructor
  · decide
  · decide

/-- Claim C4 amended: state is persisted exactly when the final exit code is
    0 for exec, call, export, smoke and the shared plan-export and autopilot
    builder orchestration; persistence still implies success for autopilot
    as a whole, but the autopilot preflight-failure resume path exits 0
    without persisting, and doctor always exits 0 without persisting. -/
theorem c4_state_save_policy (args : Args) (timeout : Int)
    (first retried fb : RunResultFlags) (re rif : Bool) (res : RunResultFlags)
    (any_failed pf : Bool) :
    ((builder_flow args timeout first retried fb re rif).state_saved = true
      ↔ (builder_flow args timeout first retried fb re rif).code = 0)
    ∧ ((cmd_exec_flow res).state_saved = true ↔ (cmd_exec_flow res).code = 0)
    ∧ ((cmd_call_flow res).state_saved = true ↔ (cmd_call_flow res).code = 0)
    ∧ ((cmd_export_flow res).state_saved = true ↔ (cmd_export_flow res).code = 0)
    ∧ ((cmd_smoke_flow any_failed).state_saved = true
        ↔ (cmd_smoke_flow any_failed).code = 0)
    ∧ ((cmd_autopilot_flow args timeout pf first retried fb re rif).state_saved = true
        → (cmd_autopilot_flow args timeout pf first retried fb re rif).code = 0)
    ∧ (cmd_autopilot_flow args timeout false first retried fb re rif
        = builder_flow args timeout first retried fb re rif)
    ∧ cmd_doctor_flow.state_saved = false ∧ cmd_doctor_flow.code = 0 := by
  refine ⟨?_, ?_, ?_, ?_, ?_, ?_, rfl, rfl, rfl⟩
  · rw [builder_flow_saved]
    exact beq_iff_eq
  · simp [cmd_exec_flow, beq_iff_eq]
  · simp [cmd_call_flow, beq_iff_eq]
  · simp [cmd_export_flow, beq_iff_eq]
  · cases any_failed <;> simp [cmd_smoke_flow]
  · cases pf
    · show (builder_flow args timeout first retried fb re rif).state_saved = true → _
      rw [builder_flow_saved]
      exact fun h => beq_iff_eq.mp h
    · intro h
      cases h

/-- Witness for C4 amended: an autopilot run with passing preflight and a
    successful builder persists state, and its exit code is 0. -/
theorem c4_state_save_policy_witness :
    (cmd_autopilot_flow ⟨false, false, none, 3 / 2, ""⟩ 120 false
        ⟨0, "ok", "", false, none⟩ ⟨0, "", "", false, none⟩ ⟨0, "", "", false, none⟩
        false false).code = 0 :=
  (c4_state_save_policy ⟨false, false, none, 3 / 2, ""⟩ 120 ⟨0, "ok", "", false, none⟩
      ⟨0, "", "", false, none⟩ ⟨0, "", "", false, none⟩ false false
      ⟨0, "", "", false, none⟩ false false).2.2.2.2.2.1 (by decide)
